import Mathlib

/-!
Verification of the qibo client job lifecycle and result-retrieval protocol.

The definitions below are a shallow embedding of `src/qibo_client/qibo_job.py`
and of `src/qibo_tii_provider/tiiprovider.py` (the archive helper only).
Network responses are passed in explicitly as values; the filesystem effects of
the archive unpacker are modelled by an explicit `FS` state threaded through
the functions; Python exceptions are modelled by `Except PyError`.
-/

namespace QiboClient

/-- Python exceptions that the embedded code can raise. -/
inductive PyError where
  /-- Python `KeyError` from a `d[key]` subscript on a dict or header map. -/
  | keyError (key : String)
  /-- Python `tarfile.ReadError` from opening an invalid archive. -/
  | tarReadError
  /-- error raised by the external result loader when the payload file is absent. -/
  | fileNotFoundError
  /-- Python `requests.exceptions.HTTPError` from `raise_for_status()`. -/
  | httpError (code : Nat)
  /-- Python `JobApiError(status_code, detail)` raised by `refresh()`. -/
  | jobApiError (code : Nat) (detail : String)
deriving DecidableEq, Repr

/-- Embeds `class QiboJobStatus(Enum)`: the four job states. -/
inductive QiboJobStatus where
  | QUEUED
  | RUNNING
  | DONE
  | ERROR
deriving DecidableEq, Repr

/-- The wire value of each enum member (`QUEUED = "to_do"`, ...). -/
def QiboJobStatus.value : QiboJobStatus → String
  | .QUEUED => "to_do"
  | .RUNNING => "in_progress"
  | .DONE => "success"
  | .ERROR => "error"

/-- Iteration order of the Python enum (`for s in QiboJobStatus`). -/
def QiboJobStatus.members : List QiboJobStatus :=
  [.QUEUED, .RUNNING, .DONE, .ERROR]

/-- Embeds `convert_str_to_job_status(status)`:
`next((s for s in QiboJobStatus if s.value == status), None)`. -/
def convert_str_to_job_status (status : String) : Option QiboJobStatus :=
  QiboJobStatus.members.find? (fun s => s.value == status)

/-- Modelled from the spec: `constants.SECONDS_BETWEEN_CHECKS`, the default
poll interval read from configuration at process start (the `constants` module
is not part of the provided sources; the sibling `tiiprovider.py` uses 2). -/
def SECONDS_BETWEEN_CHECKS : Nat := 2

/-- An HTTP response as the client observes it: the `Job-Status` header
(`none` models a response in which the header is missing) and the body as the
byte-chunk stream yielded by `response.iter_content()`. -/
structure Response where
  jobStatusHeader : Option String
  chunks : List (List Nat)
deriving DecidableEq, Repr

/-- Embeds `response.headers["Job-Status"]`: dict-style access on the header map,
which raises `KeyError` when the header is absent. -/
def Response.jobStatusOrKeyError (r : Response) : Except PyError String :=
  match r.jobStatusHeader with
  | some v => .ok v
  | none => .error (.keyError "Job-Status")

/-- The body of `wait_for_response_to_get_request`'s `while True` loop, run
over the successive responses the server returns to the repeated GET.  The
result is the returned response paired with the durations of the sleeps taken
before it, `.ok none` when every supplied response was consumed without
reaching a terminal one (the real loop would keep polling), and `.error` when
an iteration raises. -/
def wait_loop (interval : Nat) : List Response → Except PyError (Option (Response × List Nat))
  | [] => .ok none
  | response :: rest =>
    match response.jobStatusOrKeyError with
    | .error e => .error e
    | .ok header =>
      let job_status := convert_str_to_job_status header
      if job_status = some .DONE ∨ job_status = some .ERROR then
        .ok (some (response, []))
      else
        match wait_loop interval rest with
        | .error e => .error e
        | .ok none => .ok none
        | .ok (some (resp, sleeps)) => .ok (some (resp, interval :: sleeps))

/-- Embeds `wait_for_response_to_get_request(url, seconds_between_checks, verbose)`:
defaults the interval when `None` was passed, then polls.  The `verbose` flag
only controls logging and is dropped. -/
def wait_for_response_to_get_request (seconds_between_checks : Option Nat)
    (responses : List Response) : Except PyError (Option (Response × List Nat)) :=
  let interval := seconds_between_checks.getD SECONDS_BETWEEN_CHECKS
  wait_loop interval responses

/-! ### Filesystem model for the archive unpacker -/

/-- The slice of the filesystem one result-retrieval call touches: the
temporary archive file (`none` = absent) and the job's results folder as an
association list from file name to the (abstractly decoded) file content. -/
structure FS where
  tmp : Option (List Nat)
  resultsFolderExists : Bool
  resultsFolder : List (String × Nat)
deriving DecidableEq, Repr

/-- Abstract model of the external `tarfile` library: which byte strings are
valid archives, and the (name, decoded content) entries extraction produces.
Theorems quantify over this oracle, so nothing is assumed about the format. -/
structure ArchiveOracle where
  valid : List Nat → Bool
  entries : List Nat → List (String × Nat)

/-- The bytes `_write_stream_to_tmp_file` writes: each chunk in order,
skipping falsy (empty) chunks (`if chunk: tmp_file.write(chunk)`). -/
def joinChunks (chunks : List (List Nat)) : List Nat :=
  chunks.foldl (fun acc chunk => if chunk ≠ [] then acc ++ chunk else acc) []

/-- Embeds `_write_stream_to_tmp_file(stream)`: creates the temporary file, writes
the chunks, and returns its path (modelled by the written content). -/
def _write_stream_to_tmp_file (chunks : List (List Nat)) (fs : FS) : FS × List Nat :=
  let content := joinChunks chunks
  ({ fs with tmp := some content }, content)

/-- Embeds `_extract_archive_to_folder(source_archive, destination_folder)`: opens
the file as a gzip tar (`tarfile.ReadError` when invalid) and extracts every
entry into the results folder, newer entries shadowing existing files. -/
def _extract_archive_to_folder (O : ArchiveOracle) (source_archive : List Nat)
    (fs : FS) : Except PyError FS :=
  if O.valid source_archive then
    .ok { fs with resultsFolder := O.entries source_archive ++ fs.resultsFolder }
  else
    .error .tarReadError

/-- Embeds `_save_and_unpack_stream_response_to_folder(stream, results_folder)` from
`qibo_client/qibo_job.py`: write the stream to a temporary file, extract it,
then `archive_path.unlink()`.  The final state is returned on the error path
too, so the fate of the temporary file is observable. -/
def _save_and_unpack_stream_response_to_folder (O : ArchiveOracle)
    (stream : List (List Nat)) (fs : FS) : Except PyError Unit × FS :=
  let (fs1, archive_path) := _write_stream_to_tmp_file stream fs
  match _extract_archive_to_folder O archive_path fs1 with
  | .error e => (.error e, fs1)
  | .ok fs2 => (.ok (), { fs2 with tmp := none })

/-- Embeds `_write_stream_response_to_folder(stream, results_folder)` from
`qibo_tii_provider/tiiprovider.py`: the same save, extract (`"r"` mode),
`os.remove` sequence, with the same missing cleanup on the error path. -/
def _write_stream_response_to_folder (O : ArchiveOracle)
    (stream : List (List Nat)) (fs : FS) : Except PyError Unit × FS :=
  let (fs1, archive_path) := _write_stream_to_tmp_file stream fs
  match _extract_archive_to_folder O archive_path fs1 with
  | .error e => (.error e, fs1)
  | .ok fs2 => (.ok (), { fs2 with tmp := none })

/-! ### The job handle and its operations -/

/-- Embeds `@dataclass QiboJobResult`: pid, success flag and the optional decoded
result (the payload is abstracted to a `Nat`, matching the archive oracle). -/
structure QiboJobResult where
  pid : String
  success : Bool
  result : Option Nat
deriving DecidableEq, Repr

/-- The mutable attributes of a `QiboJob` instance.  `statusCache` embeds
`self._status`, which is `None` both initially and after a fetch whose status
token was unrecognized. -/
structure QiboJob where
  base_url : String
  pid : String
  circuit : Option String
  nshots : Option Nat
  lab_location : Option String
  device : Option String
  statusCache : Option QiboJobStatus
deriving DecidableEq, Repr

/-- Embeds `QiboJob.__init__` with only pid and base url, as the facade builds it:
every optional attribute absent and `self._status = None`. -/
def QiboJob.init (pid : String) (base_url : String) : QiboJob :=
  { base_url := base_url, pid := pid, circuit := none, nshots := none,
    lab_location := none, device := none, statusCache := none }

/-- The nested `"device"` object of a `/job/info/{pid}` response body. -/
structure DeviceInfo where
  lab_location : Option String
  device : Option String
deriving DecidableEq, Repr

/-- A parsed `/job/info/{pid}` response body; each field is `none` when the
corresponding key is absent from the JSON object. -/
structure JobInfo where
  circuit : Option String
  nshots : Option Nat
  device : Option DeviceInfo
  status : Option String
deriving DecidableEq, Repr

/-- The `/job/info/{pid}` HTTP response: status code, parsed body (`none`
models a JSON `null` body) and the `detail` field used on the error path. -/
structure InfoResponse where
  status_code : Nat
  body : Option JobInfo
  detail : Option String
deriving DecidableEq, Repr

/-- Models `requests.Response.raise_for_status()`, which raises for codes in [400, 600). -/
def raisesForStatus (code : Nat) : Bool :=
  400 ≤ code && code < 600

/-- Embeds `QiboJob._update_job_info(info)`: `circuit` and `nshots` via `info.get`,
then `info["device"]` and `info["status"]` via subscripts that raise
`KeyError` when absent.  Assignments already executed before a raise are kept
in the returned state, mirroring Python's in-place mutation order. -/
def QiboJob._update_job_info (job : QiboJob) (info : JobInfo) :
    Except PyError Unit × QiboJob :=
  let job1 := { job with circuit := info.circuit, nshots := info.nshots }
  match info.device with
  | none => (.error (.keyError "device"), job1)
  | some dev =>
    let job2 := { job1 with lab_location := dev.lab_location, device := dev.device }
    match info.status with
    | none => (.error (.keyError "status"), job2)
    | some st => (.ok (), { job2 with statusCache := convert_str_to_job_status st })

/-- Embeds `QiboJob.refresh()`: GET `/job/info/{pid}`; non-2xx becomes
`JobApiError(status_code, body["detail"])`; a `null` body skips the update;
otherwise `_update_job_info` runs on the parsed body. -/
def QiboJob.refresh (job : QiboJob) (resp : InfoResponse) :
    Except PyError Unit × QiboJob :=
  if raisesForStatus resp.status_code then
    match resp.detail with
    | some d => (.error (.jobApiError resp.status_code d), job)
    | none => (.error (.keyError "detail"), job)
  else
    match resp.body with
    | none => (.ok (), job)
    | some info => job._update_job_info info

/-- The `/job/status/{pid}` HTTP response: status code and the `status` field
of the body (`none` when the key is absent). -/
structure StatusResponse where
  status_code : Nat
  status : Option String
deriving DecidableEq, Repr

/-- Embeds `QiboJob.status()`: GET `/job/status/{pid}`; `raise_for_status()`
propagates the raw HTTP error; then `response.json()["status"]` is converted,
cached in `self._status` and returned (possibly `None`, despite the declared
`QiboJobStatus` return type). -/
def QiboJob.statusQuery (job : QiboJob) (resp : StatusResponse) :
    Except PyError (Option QiboJobStatus) × QiboJob :=
  if raisesForStatus resp.status_code then
    (.error (.httpError resp.status_code), job)
  else
    match resp.status with
    | none => (.error (.keyError "status"), job)
    | some s =>
      let st := convert_str_to_job_status s
      (.ok st, { job with statusCache := st })

/-- Embeds `QiboJob.running()`: refresh lazily when `self._status is None`, then
compare the cache with `RUNNING`.  The third component records whether the
network call (`refresh`) was issued; `resp` is the response that call would
receive. -/
def QiboJob.running (job : QiboJob) (resp : InfoResponse) :
    Except PyError Bool × QiboJob × Bool :=
  if job.statusCache = none then
    match job.refresh resp with
    | (.error e, job1) => (.error e, job1, true)
    | (.ok _, job1) => (.ok (job1.statusCache == some .RUNNING), job1, true)
  else
    (.ok (job.statusCache == some .RUNNING), job, false)

/-- Embeds `QiboJob.done()`: same shape as `running()`, comparing with `DONE`. -/
def QiboJob.done (job : QiboJob) (resp : InfoResponse) :
    Except PyError Bool × QiboJob × Bool :=
  if job.statusCache = none then
    match job.refresh resp with
    | (.error e, job1) => (.error e, job1, true)
    | (.ok _, job1) => (.ok (job1.statusCache == some .DONE), job1, true)
  else
    (.ok (job.statusCache == some .DONE), job, false)

/-- Python `str.lower()`, as applied to the `Job-Status` header token
(character-wise case folding). -/
def pyLower (s : String) : String :=
  ⟨s.data.map Char.toLower⟩

/-- Models `qibo.result.load_result(results_path)`: the external decoder, reading the
fixed-name `results.npy` file from the results folder; a missing file is a
fatal loader error, a present file yields its decoded content. -/
def load_result (fs : FS) : Except PyError Nat :=
  match fs.resultsFolder.lookup "results.npy" with
  | some v => .ok v
  | none => .error .fileNotFoundError

/-- Embeds `QiboJob.result(wait, verbose)`: poll until a terminal response, create
the results folder, build `QiboJobResult(pid, success=False, result=None)`,
save-and-unpack the body (a `tarfile.ReadError` is caught and the non-success
result returned), return the non-success result when the `Job-Status` header
lowercases to `"error"`, else set `result.result` from the loaded payload and
return it — `success` is never reassigned.  `.ok none` is the case in which
the supplied responses ran out while the real loop would still be polling. -/
def QiboJob.result (O : ArchiveOracle) (job : QiboJob) (wait : Option Nat)
    (responses : List Response) (fs : FS) :
    Except PyError (Option QiboJobResult) × FS :=
  match wait_for_response_to_get_request wait responses with
  | .error e => (.error e, fs)
  | .ok none => (.ok none, fs)
  | .ok (some (response, _)) =>
    let fs0 := { fs with resultsFolderExists := true }
    let res0 : QiboJobResult := { pid := job.pid, success := false, result := none }
    match _save_and_unpack_stream_response_to_folder O response.chunks fs0 with
    | (.error .tarReadError, fs1) => (.ok (some res0), fs1)
    | (.error e, fs1) => (.error e, fs1)
    | (.ok _, fs1) =>
      match response.jobStatusOrKeyError with
      | .error e => (.error e, fs1)
      | .ok header =>
        if pyLower header = "error" then
          (.ok (some res0), fs1)
        else
          match load_result fs1 with
          | .error e => (.error e, fs1)
          | .ok v => (.ok (some { res0 with result := some v }), fs1)

/-- A response whose `Job-Status` header is present and parses to a
non-terminal status (`QUEUED`, `RUNNING`) or to no status at all. -/
def nonTerminalResponse (r : Response) : Prop :=
  ∃ h, r.jobStatusHeader = some h ∧
    (convert_str_to_job_status h = none ∨
     convert_str_to_job_status h = some .QUEUED ∨
     convert_str_to_job_status h = some .RUNNING)

/-- A response whose `Job-Status` header is present and parses to a terminal
status (`DONE` or `ERROR`). -/
def terminalResponse (r : Response) : Prop :=
  ∃ h, r.jobStatusHeader = some h ∧
    (convert_str_to_job_status h = some .DONE ∨
     convert_str_to_job_status h = some .ERROR)

end QiboClient

namespace QiboClient

/-! ### Helper lemmas -/

/-- Full characterization of the wire-token mapping. -/
theorem convert_characterization (s : String) :
    convert_str_to_job_status s =
      if s = "to_do" then some .QUEUED
      else if s = "in_progress" then some .RUNNING
      else if s = "success" then some .DONE
      else if s = "error" then some .ERROR
      else none := by
  unfold convert_str_to_job_status QiboJobStatus.members
  by_cases h1 : s = "to_do"
  · subst h1; decide
  by_cases h2 : s = "in_progress"
  · subst h2; decide
  by_cases h3 : s = "success"
  · subst h3; decide
  by_cases h4 : s = "error"
  · subst h4; decide
  have e1 : ("to_do" == s) = false := beq_eq_false_iff_ne.mpr (Ne.symm h1)
  have e2 : ("in_progress" == s) = false := beq_eq_false_iff_ne.mpr (Ne.symm h2)
  have e3 : ("success" == s) = false := beq_eq_false_iff_ne.mpr (Ne.symm h3)
  have e4 : ("error" == s) = false := beq_eq_false_iff_ne.mpr (Ne.symm h4)
  simp [List.find?, QiboJobStatus.value, h1, h2, h3, h4, e1, e2, e3, e4]

/-- One loop iteration on a terminal response returns it with no sleep. -/
theorem wait_loop_terminal (interval : Nat) (r : Response) (rest : List Response)
    (hr : terminalResponse r) :
    wait_loop interval (r :: rest) = .ok (some (r, [])) := by
  obtain ⟨h, hhdr, hconv⟩ := hr
  unfold wait_loop
  simp [Response.jobStatusOrKeyError, hhdr]
  rcases hconv with hc | hc <;> simp [hc]

/-- The loop walks past any prefix of non-terminal responses, taking one sleep
of the configured interval per response skipped. -/
theorem wait_loop_first_terminal (interval : Nat) (pre : List Response)
    (r : Response) (rest : List Response)
    (hpre : ∀ p ∈ pre, nonTerminalResponse p) (hr : terminalResponse r) :
    wait_loop interval (pre ++ r :: rest) =
      .ok (some (r, List.replicate pre.length interval)) := by
  induction pre with
  | nil => simpa using wait_loop_terminal interval r rest hr
  | cons p pre ih =>
    obtain ⟨h, hhdr, hconv⟩ := hpre p (List.mem_cons_self p pre)
    have ih' := ih (fun q hq => hpre q (List.mem_cons_of_mem p hq))
    rw [List.cons_append]
    unfold wait_loop
    simp only [Response.jobStatusOrKeyError, hhdr]
    have hnt : ¬(convert_str_to_job_status h = some .DONE ∨
        convert_str_to_job_status h = some .ERROR) := by
      rcases hconv with hc | hc | hc <;> simp [hc]
    simp [hnt, ih', List.replicate_succ]

/-! ### Claim theorems -/

/-- C9: `convert_str_to_job_status` is a pure total function on strings,
mapping `"to_do"` to `QUEUED`, `"in_progress"` to `RUNNING`, `"success"` to
`DONE`, `"error"` to `ERROR`, and every other string to `none`; as a Lean
function it has no side effects and no failure mode. -/
theorem convert_str_to_job_status_total_spec (s : String) :
    convert_str_to_job_status s =
      if s = "to_do" then some .QUEUED
      else if s = "in_progress" then some .RUNNING
      else if s = "success" then some .DONE
      else if s = "error" then some .ERROR
      else none :=
  convert_characterization s

/-- C10: on a 2xx `/job/status/{pid}` response whose status token is not one
of the four recognized wire tokens, `status()` returns `none` (despite the
declared `QiboJobStatus` return type) and resets the cached status to the
never-fetched value `none`: the call neither raises nor records a status. -/
theorem statusQuery_unrecognized_token_returns_none (job : QiboJob) (code : Nat)
    (s : String) (hcode : raisesForStatus code = false)
    (h1 : s ≠ "to_do") (h2 : s ≠ "in_progress") (h3 : s ≠ "success")
    (h4 : s ≠ "error") :
    job.statusQuery { status_code := code, status := some s } =
      (.ok none, { job with statusCache := none }) := by
  have hconv : convert_str_to_job_status s = none := by
    rw [convert_characterization]; simp [h1, h2, h3, h4]
  unfold QiboJob.statusQuery
  simp [hcode, hconv]

/-- Witness for C10 at status code 200 and token `"bogus"`. -/
theorem statusQuery_unrecognized_token_returns_none_witness :
    (QiboJob.init "p1" "http://u").statusQuery { status_code := 200, status := some "bogus" } =
      (.ok none, QiboJob.init "p1" "http://u") :=
  statusQuery_unrecognized_token_returns_none (QiboJob.init "p1" "http://u") 200 "bogus"
    (by decide) (by decide) (by decide) (by decide) (by decide)

/-- C4: the polling loop returns the very first response whose `Job-Status`
header parses to `DONE` or `ERROR`, with exactly one sleep of the constant
configured interval per earlier response (which parsed to `QUEUED`, `RUNNING`
or none) and no sleep after the terminal response; the prefix of non-terminal
responses is arbitrary (no retry limit). -/
theorem wait_returns_first_terminal_response (interval : Nat)
    (pre : List Response) (r : Response) (rest : List Response)
    (hpre : ∀ p ∈ pre, nonTerminalResponse p) (hr : terminalResponse r) :
    wait_for_response_to_get_request (some interval) (pre ++ r :: rest) =
      .ok (some (r, List.replicate pre.length interval)) := by
  unfold wait_for_response_to_get_request
  simpa using wait_loop_first_terminal interval pre r rest hpre hr

/-- Witness for C4: one queued response, then a done one, with interval 1. -/
theorem wait_returns_first_terminal_response_witness :
    wait_for_response_to_get_request (some 1)
      [{ jobStatusHeader := some "to_do", chunks := [] },
       { jobStatusHeader := some "success", chunks := [] }] =
      .ok (some ({ jobStatusHeader := some "success", chunks := [] }, [1])) :=
  wait_returns_first_terminal_response 1
    [{ jobStatusHeader := some "to_do", chunks := [] }]
    { jobStatusHeader := some "success", chunks := [] } []
    (by
      intro p hp
      simp only [List.mem_singleton] at hp
      subst hp
      exact ⟨"to_do", rfl, Or.inr (Or.inl (by decide))⟩)
    ⟨"success", rfl, Or.inl (by decide)⟩

/-- C5 counterexample: a response with a missing `Job-Status` header makes
the polling loop raise `KeyError("Job-Status")` rather than continue, so the
claim that a missing header never raises an error out of the loop is false. -/
theorem missing_header_raises_keyerror :
    wait_for_response_to_get_request (some 1)
      [{ jobStatusHeader := none, chunks := [] }] =
      .error (.keyError "Job-Status") := by
  rfl

/-- C5 amended: a response whose `Job-Status` header is present but does not
parse to any `JobStatus` maps to `none`, which is treated as non-terminal, so
the loop sleeps and polls again; a response whose header is missing instead
raises a `KeyError` out of the loop. -/
theorem header_handling_in_wait_loop (interval : Nat) (s : String)
    (chunks : List (List Nat)) (rest : List Response)
    (hs : convert_str_to_job_status s = none) :
    (wait_loop interval ({ jobStatusHeader := some s, chunks := chunks } :: rest) =
      match wait_loop interval rest with
      | .error e => .error e
      | .ok none => .ok none
      | .ok (some (resp, sleeps)) => .ok (some (resp, interval :: sleeps))) ∧
    (wait_loop interval ({ jobStatusHeader := none, chunks := chunks } :: rest) =
      .error (.keyError "Job-Status")) := by
  constructor
  · conv_lhs => rw [wait_loop]
    simp [Response.jobStatusOrKeyError, hs]
  · rw [wait_loop]
    simp [Response.jobStatusOrKeyError]

/-- Witness for C5 amended at token `"bogus"`, interval 3 and no further
responses. -/
theorem header_handling_in_wait_loop_witness :
    (wait_loop 3 [{ jobStatusHeader := some "bogus", chunks := [] }] = .ok none) ∧
    (wait_loop 3 [{ jobStatusHeader := none, chunks := [] }] =
      .error (.keyError "Job-Status")) := by
  have h := header_handling_in_wait_loop 3 "bogus" [] [] (by decide)
  exact ⟨h.1, h.2⟩

/-- C3 counterexample: on a stream that is not a valid archive, the
save-and-unpack step fails with the archive-format error and the temporary
file it wrote still exists afterward (`tmp = some [1]`, the written bytes),
so the claim that the temporary file is always gone afterward is false. -/
theorem unpack_failure_keeps_tmp_file :
    _save_and_unpack_stream_response_to_folder
        { valid := fun _ => false, entries := fun _ => [] } [[1]]
        { tmp := none, resultsFolderExists := true, resultsFolder := [] } =
      (.error .tarReadError,
       { tmp := some [1], resultsFolderExists := true, resultsFolder := [] }) := by
  rfl

/-- C3 amended: when the save-and-unpack step returns normally the temporary
file no longer exists, but when it fails with the archive-format error the
temporary file (holding the written stream bytes) is still on disk; the same
holds for the provider-module variant of the function. -/
theorem unpack_tmp_file_fate (O : ArchiveOracle) (stream : List (List Nat))
    (fs : FS) :
    (∀ u fs2, _save_and_unpack_stream_response_to_folder O stream fs = (.ok u, fs2) →
      fs2.tmp = none) ∧
    (∀ e fs2, _save_and_unpack_stream_response_to_folder O stream fs = (.error e, fs2) →
      fs2.tmp = some (joinChunks stream)) ∧
    (∀ u fs2, _write_stream_response_to_folder O stream fs = (.ok u, fs2) →
      fs2.tmp = none) ∧
    (∀ e fs2, _write_stream_response_to_folder O stream fs = (.error e, fs2) →
      fs2.tmp = some (joinChunks stream)) := by
  unfold _save_and_unpack_stream_response_to_folder _write_stream_response_to_folder
    _extract_archive_to_folder _write_stream_to_tmp_file
  by_cases hv : O.valid (joinChunks stream) = true <;> simp [hv]

/-- Witness for C3 amended: an always-valid and an always-invalid oracle on
the one-chunk stream `[[2]]`. -/
theorem unpack_tmp_file_fate_witness :
    ((_save_and_unpack_stream_response_to_folder
        { valid := fun _ => true, entries := fun _ => [] } [[2]]
        { tmp := none, resultsFolderExists := true, resultsFolder := [] }).2.tmp = none) ∧
    ((_save_and_unpack_stream_response_to_folder
        { valid := fun _ => false, entries := fun _ => [] } [[2]]
        { tmp := none, resultsFolderExists := true, resultsFolder := [] }).2.tmp = some [2]) := by
  constructor
  · exact (unpack_tmp_file_fate { valid := fun _ => true, entries := fun _ => [] } [[2]]
      { tmp := none, resultsFolderExists := true, resultsFolder := [] }).1 () _ rfl
  · exact (unpack_tmp_file_fate { valid := fun _ => false, entries := fun _ => [] } [[2]]
      { tmp := none, resultsFolderExists := true, resultsFolder := [] }).2.1 .tarReadError _ rfl

/-- C6 counterexample: a 2xx `/job/info` response whose body is the empty
subset of the expected keys makes `refresh()` raise `KeyError("device")`
instead of succeeding, so the claim that `refresh()` succeeds on every subset
of the expected keys is false. -/
theorem refresh_empty_body_raises_keyerror :
    (QiboJob.init "p" "http://u").refresh
        { status_code := 200,
          body := some { circuit := none, nshots := none, device := none, status := none },
          detail := none } =
      (.error (.keyError "device"), QiboJob.init "p" "http://u") := by
  rfl

/-- C6 amended: on a 2xx response body that contains the `device` and
`status` keys, `refresh()` succeeds and updates every field — `circuit` and
`nshots` (and the two sub-fields of `device`) via optional lookup, so their
absence sets the attribute to `none` without error; a body missing the
`device` or the `status` key instead raises a `KeyError`. -/
theorem refresh_updates_fields (job : QiboJob) (code : Nat) (info : JobInfo)
    (dev : DeviceInfo) (st : String) (detail : Option String)
    (hcode : raisesForStatus code = false)
    (hdev : info.device = some dev) (hst : info.status = some st) :
    job.refresh { status_code := code, body := some info, detail := detail } =
      (.ok (),
       { job with
          circuit := info.circuit
          nshots := info.nshots
          lab_location := dev.lab_location
          device := dev.device
          statusCache := convert_str_to_job_status st }) := by
  unfold QiboJob.refresh QiboJob._update_job_info
  simp [hcode, hdev, hst]

/-- Witness for C6 amended: a 200 response carrying only the mandatory
`device` (itself empty) and `status` keys. -/
theorem refresh_updates_fields_witness :
    (QiboJob.init "p2" "http://u").refresh
        { status_code := 200,
          body := some { circuit := none, nshots := none,
                         device := some { lab_location := none, device := none },
                         status := some "in_progress" },
          detail := none } =
      (.ok (), { QiboJob.init "p2" "http://u" with statusCache := some .RUNNING }) :=
  refresh_updates_fields (QiboJob.init "p2" "http://u") 200
    { circuit := none, nshots := none,
      device := some { lab_location := none, device := none },
      status := some "in_progress" }
    { lab_location := none, device := none } "in_progress" none
    (by decide) rfl rfl

/-- C7: on a terminal response whose body is not a valid gzip tar stream,
`result()` does not propagate the archive-format error: it returns
`QiboJobResult(pid, success=False, result=None)` normally (no exception
escapes), with the partially written archive file left on disk. -/
theorem result_recovers_archive_error (O : ArchiveOracle) (job : QiboJob)
    (wait : Nat) (pre : List Response) (r : Response) (rest : List Response)
    (fs : FS) (hpre : ∀ p ∈ pre, nonTerminalResponse p) (hr : terminalResponse r)
    (hinvalid : O.valid (joinChunks r.chunks) = false) :
    job.result O (some wait) (pre ++ r :: rest) fs =
      (.ok (some { pid := job.pid, success := false, result := none }),
       { fs with resultsFolderExists := true, tmp := some (joinChunks r.chunks) }) := by
  unfold QiboJob.result
  rw [wait_for_response_to_get_request, Option.getD_some,
    wait_loop_first_terminal wait pre r rest hpre hr]
  unfold _save_and_unpack_stream_response_to_folder _extract_archive_to_folder
    _write_stream_to_tmp_file
  simp [hinvalid]

/-- Witness for C7: a single terminal `"success"` response whose body the
oracle rejects. -/
theorem result_recovers_archive_error_witness :
    (QiboJob.init "p3" "http://u").result
        { valid := fun _ => false, entries := fun _ => [] } (some 2)
        [{ jobStatusHeader := some "success", chunks := [[9]] }]
        { tmp := none, resultsFolderExists := false, resultsFolder := [] } =
      (.ok (some { pid := "p3", success := false, result := none }),
       { tmp := some [9], resultsFolderExists := true, resultsFolder := [] }) :=
  result_recovers_archive_error { valid := fun _ => false, entries := fun _ => [] }
    (QiboJob.init "p3" "http://u") 2 []
    { jobStatusHeader := some "success", chunks := [[9]] } []
    { tmp := none, resultsFolderExists := false, resultsFolder := [] }
    (by intro p hp; simp at hp)
    ⟨"success", rfl, Or.inl (by decide)⟩
    rfl

/-- C8 counterexample: a `status()` fetch completes successfully with the
unrecognized token `"bogus"` (so the status has been fetched), yet the next
`running()` call still issues a network call (`refresh`), because the code
tests `self._status is None` and cannot tell "never fetched" from "fetched as
none"; this falsifies the claim that a network call happens only when the
status has never been fetched. -/
theorem running_refetches_after_unrecognized_fetch :
    ((QiboJob.init "p4" "http://u").statusQuery
        { status_code := 200, status := some "bogus" }).1 = .ok none ∧
    (((QiboJob.init "p4" "http://u").statusQuery
        { status_code := 200, status := some "bogus" }).2.running
        { status_code := 200, body := none, detail := none }).2.2 = true := by
  constructor <;> rfl

/-- C8 amended: `running()` and `done()` issue the network call (`refresh`)
if and only if the cached status is `none` — which holds both before any
fetch and after a fetch that stored an unrecognized token; whenever the cache
holds a real status, both answer from the cache without a network call,
returning whether it is `RUNNING`, respectively `DONE`. -/
theorem lazy_refresh_iff_cache_none (job : QiboJob) (resp : InfoResponse) :
    ((job.running resp).2.2 = true ↔ job.statusCache = none) ∧
    ((job.done resp).2.2 = true ↔ job.statusCache = none) ∧
    (∀ s, job.statusCache = some s →
      job.running resp = (.ok (s == QiboJobStatus.RUNNING), job, false) ∧
      job.done resp = (.ok (s == QiboJobStatus.DONE), job, false)) := by
  unfold QiboJob.running QiboJob.done
  by_cases hc : job.statusCache = none
  · rcases h : job.refresh resp with ⟨e | u, job1⟩ <;> simp [hc, h]
  · obtain ⟨s, hs⟩ := Option.ne_none_iff_exists'.mp hc
    simp [hs]

/-- Witness for C8 amended: a job whose cache holds `RUNNING` answers both
predicates from the cache without any network call. -/
theorem lazy_refresh_iff_cache_none_witness :
    (({ QiboJob.init "p5" "http://u" with statusCache := some .RUNNING }.running
        { status_code := 200, body := none, detail := none }) =
      (.ok true, { QiboJob.init "p5" "http://u" with statusCache := some .RUNNING }, false)) ∧
    (({ QiboJob.init "p5" "http://u" with statusCache := some .RUNNING }.done
        { status_code := 200, body := none, detail := none }) =
      (.ok false, { QiboJob.init "p5" "http://u" with statusCache := some .RUNNING }, false)) := by
  have h := (lazy_refresh_iff_cache_none
      { QiboJob.init "p5" "http://u" with statusCache := some .RUNNING }
      { status_code := 200, body := none, detail := none }).2.2 .RUNNING rfl
  exact ⟨h.1, h.2⟩

/-- C1 (code bug): on a polled response whose `Job-Status` header is the
terminal success token and whose body is a valid archive containing a
decodable `results.npy` payload, `result()` returns the job's pid and the
decoded payload but with `success = false`: the code builds
`QiboJobResult(pid, success=False, result=None)` and never reassigns
`success`, where the spec requires `success: true` on this path. -/
theorem result_success_header_leaves_success_false :
    (QiboJob.init "job-1" "http://u").result
        { valid := fun _ => true, entries := fun _ => [("results.npy", 42)] }
        (some 1)
        [{ jobStatusHeader := some "success", chunks := [[1, 2]] }]
        { tmp := none, resultsFolderExists := false, resultsFolder := [] } =
      (.ok (some { pid := "job-1", success := false, result := some 42 }),
       { tmp := none, resultsFolderExists := true,
         resultsFolder := [("results.npy", 42)] }) := by
  rfl

/-- C2 (code bug): `result()` on a successful terminal response constructs
and returns a `QiboJobResult` whose `success` field is `false` while its
`result` payload is present (`some 7`), violating the invariant that
`success = false` implies the payload is absent. -/
theorem result_builds_nonsuccess_with_payload :
    ∃ r : QiboJobResult,
      ((QiboJob.init "abc" "http://u").result
          { valid := fun _ => true, entries := fun _ => [("results.npy", 7)] }
          (some 1)
          [{ jobStatusHeader := some "success", chunks := [[3]] }]
          { tmp := none, resultsFolderExists := false, resultsFolder := [] }).1 =
        .ok (some r) ∧ r.success = false ∧ r.result ≠ none := by
  exact ⟨{ pid := "abc", success := false, result := some 7 }, rfl, rfl, by simp⟩

end QiboClient
